import Mathlib

/-!
Verification of the gunicorn Prometheus instrumentation module
(gunicorn/instrument/prometheus.py) against its specification.

The Python module is shallowly embedded below:
* `pyFloat` models Python's float() applied to a plain decimal string
  (optional sign, integer part, optional fractional part); values are ℚ.
* `UvicornHandler.emit` is the access-log bridge.  It is fallible: the
  source indexes `record.args` with no try/except and calls `float`, so
  a missing key or a non-numeric value raises (`PyError`).  On success
  it returns the list of histogram samples recorded by the call; the
  process id is passed as an argument, modelling the `getpid()` call
  performed at emit time.
* `Prometheus.critical/error/warning/exception/info/debug/log` are the
  adapter methods, embedded as state transformers on `PromState`:
  forwarded base-`Logger` invocations are recorded in `baseCalls`, and
  the `gunicorn.log` counter is a function from the `type` label to ℕ.
* `prometheusInit` is `Prometheus.__init__`: it builds the endpoint
  string, selects the exporter, converts the export interval through
  `float`, and threads its process-global side effects (the
  `set_meter_provider` call and the `addHandler` call on the global
  `gunicorn.access` logger) through a `GlobalState`.
-/

/-- A digit character. -/
def isDigitChar (c : Char) : Bool := '0' ≤ c && c ≤ '9'

/-- Numeric value of a decimal digit list, most significant first. -/
def natOfDigits (l : List Char) : Nat :=
  l.foldl (fun a c => a * 10 + (c.toNat - '0'.toNat)) 0

/-- Unsigned part of a Python decimal float literal: digits, optionally
followed by a point and further digits; at least one digit overall. -/
def parseUnsigned (l : List Char) : Option ℚ :=
  let intPart := l.takeWhile isDigitChar
  match l.dropWhile isDigitChar with
  | [] => if intPart.isEmpty then none else some (natOfDigits intPart : ℚ)
  | '.' :: frac =>
      if frac.all isDigitChar && !(intPart.isEmpty && frac.isEmpty) then
        some ((natOfDigits intPart : ℚ) + (natOfDigits frac : ℚ) / 10 ^ frac.length)
      else none
  | _ => none

/-- Model of Python `float(s)` on decimal strings: an optional sign then
an unsigned decimal literal.  Exponent and special forms are outside the
inputs this module's claims concern. -/
def pyFloat (s : String) : Option ℚ :=
  match s.data with
  | '-' :: rest => (parseUnsigned rest).map (fun q => -q)
  | '+' :: rest => parseUnsigned rest
  | l => parseUnsigned l

/-- First-match lookup in an argument mapping, as Python dict indexing. -/
def argLookup (m : List (String × String)) (k : String) : Option String :=
  match m with
  | [] => none
  | (k0, v) :: rest => if k0 = k then some v else argLookup rest k

/-- A log record as seen by a logging handler: its logger name
(`record.name`) and its argument mapping (`record.args`). -/
structure LogRecord where
  name : String
  args : List (String × String)
deriving DecidableEq

/-- A label value: string or number, as in the Python label dicts. -/
inductive LabelValue
  | str : String → LabelValue
  | num : Nat → LabelValue
deriving DecidableEq

/-- One sample recorded into the `gunicorn.request.time` histogram. -/
structure HistSample where
  value : ℚ
  labels : List (String × LabelValue)
deriving DecidableEq

/-- A Python exception escaping `emit`: dict `KeyError` or `float`'s
`ValueError`. -/
inductive PyError
  | keyError : String → PyError
  | valueError : String → PyError
deriving DecidableEq

/-- The channel name `UvicornHandler.emit` filters on. -/
def uvicornAccessChannel : String := "uvicorn.access"

/-- The logger the handler is attached to in `Prometheus.__init__`
(`logging.getLogger("gunicorn.access").addHandler(...)`). -/
def registeredChannel : String := "gunicorn.access"

/-- `UvicornHandler.emit`.  Mirrors the source line by line: return
early unless the record name is `"uvicorn.access"`; index `args["s"]`
then `args["D"]` (raising `KeyError` when absent); convert `D` with
`float` (raising `ValueError` when non-numeric); divide by 10^3 and
record one histogram sample labelled with the status and the process id
read at call time. -/
def UvicornHandler.emit (pid : Nat) (r : LogRecord) :
    Except PyError (List HistSample) :=
  if r.name ≠ uvicornAccessChannel then .ok []
  else
    match argLookup r.args "s" with
    | none => .error (.keyError "s")
    | some status =>
      match argLookup r.args "D" with
      | none => .error (.keyError "D")
      | some d =>
        match pyFloat d with
        | none => .error (.valueError d)
        | some micros =>
            .ok [{ value := micros / 10 ^ 3,
                   labels := [("status", .str status), ("worker_pid", .num pid)] }]

/-- One base-`Logger` invocation forwarded by the adapter. -/
inductive BaseCall
  | critical (msg : String) (args : List String) (kwargs : List (String × String))
  | error (msg : String) (args : List String) (kwargs : List (String × String))
  | warning (msg : String) (args : List String) (kwargs : List (String × String))
  | exception (msg : String) (args : List String) (kwargs : List (String × String))
  | log (lvl : Nat) (msg : String) (args : List String) (kwargs : List (String × String))
deriving DecidableEq

/-- `logging.INFO`. -/
def INFO_LEVEL : Nat := 20

/-- `logging.DEBUG`. -/
def DEBUG_LEVEL : Nat := 10

/-- Observable state of a `Prometheus` adapter: the base-`Logger` calls
it forwarded, and the `gunicorn.log` counter keyed by the `type` label. -/
structure PromState where
  baseCalls : List BaseCall
  logCounter : String → Nat

/-- `counter.add n` at label set `\x7btype: t\x7d`. -/
def counterAdd (f : String → Nat) (n : Nat) (t : String) : String → Nat :=
  fun x => if x = t then f x + n else f x

/-- Arguments of one adapter method call. -/
structure LogCall where
  msg : String
  args : List String
  kwargs : List (String × String)
deriving DecidableEq

/-- `Prometheus.critical`: forward to `Logger.critical`, then add 1 to
the log counter at `\x7btype: "critical"\x7d`. -/
def Prometheus.critical (st : PromState) (c : LogCall) : PromState :=
  let st := { st with baseCalls := st.baseCalls ++ [BaseCall.critical c.msg c.args c.kwargs] }
  { st with logCounter := counterAdd st.logCounter 1 "critical" }

/-- `Prometheus.error`: forward to `Logger.error`, then count it. -/
def Prometheus.error (st : PromState) (c : LogCall) : PromState :=
  let st := { st with baseCalls := st.baseCalls ++ [BaseCall.error c.msg c.args c.kwargs] }
  { st with logCounter := counterAdd st.logCounter 1 "error" }

/-- `Prometheus.warning`: forward to `Logger.warning`, then count it. -/
def Prometheus.warning (st : PromState) (c : LogCall) : PromState :=
  let st := { st with baseCalls := st.baseCalls ++ [BaseCall.warning c.msg c.args c.kwargs] }
  { st with logCounter := counterAdd st.logCounter 1 "warning" }

/-- `Prometheus.exception`: forward to `Logger.exception`, then count it. -/
def Prometheus.exception (st : PromState) (c : LogCall) : PromState :=
  let st := { st with baseCalls := st.baseCalls ++ [BaseCall.exception c.msg c.args c.kwargs] }
  { st with logCounter := counterAdd st.logCounter 1 "exception" }

/-- `Prometheus.log`: forward to `Logger.log`; no counter touched. -/
def Prometheus.log (st : PromState) (lvl : Nat) (c : LogCall) : PromState :=
  { st with baseCalls := st.baseCalls ++ [BaseCall.log lvl c.msg c.args c.kwargs] }

/-- `Prometheus.info`: delegates to `self.log(logging.INFO, ...)`. -/
def Prometheus.info (st : PromState) (c : LogCall) : PromState :=
  Prometheus.log st INFO_LEVEL c

/-- `Prometheus.debug`: delegates to `self.log(logging.DEBUG, ...)`. -/
def Prometheus.debug (st : PromState) (c : LogCall) : PromState :=
  Prometheus.log st DEBUG_LEVEL c

/-- The four counted severities. -/
inductive Severity
  | critical
  | error
  | warning
  | exception
deriving DecidableEq

/-- Label value used for a severity (the method name). -/
def sevName : Severity → String
  | .critical => "critical"
  | .error => "error"
  | .warning => "warning"
  | .exception => "exception"

/-- The adapter method of a severity. -/
def sevMethod (st : PromState) : Severity → LogCall → PromState
  | .critical, c => Prometheus.critical st c
  | .error, c => Prometheus.error st c
  | .warning, c => Prometheus.warning st c
  | .exception, c => Prometheus.exception st c

/-- The base-`Logger` call a severity method forwards. -/
def sevBaseCall : Severity → LogCall → BaseCall
  | .critical, c => .critical c.msg c.args c.kwargs
  | .error, c => .error c.msg c.args c.kwargs
  | .warning, c => .warning c.msg c.args c.kwargs
  | .exception, c => .exception c.msg c.args c.kwargs

/-- A sequence of calls to one severity method. -/
def sevCalls (st : PromState) (sev : Severity) (cs : List LogCall) : PromState :=
  cs.foldl (fun s c => sevMethod s sev c) st

/-- Aggregation temporality, per instrument kind. -/
inductive Temporality
  | cumulative
  | delta
deriving DecidableEq

/-- The `preferred_temporality` mapping handed to the OTLP exporter:
one entry per instrument kind. -/
structure PreferredTemporality where
  counter : Temporality
  histogram : Temporality
deriving DecidableEq

/-- The `temporality_cumulative` dict of `Prometheus.__init__`. -/
def temporalityCumulative : PreferredTemporality :=
  { counter := .cumulative, histogram := .cumulative }

/-- A metric exporter as configured by `Prometheus.__init__`: either the
remote OTLP exporter (endpoint string, `insecure=True`, preferred
temporality) or the local console exporter. -/
inductive Exporter
  | otlp (endpoint : String) (insecure : Bool) (temporality : PreferredTemporality)
  | console
deriving DecidableEq

/-- The preferred temporality an exporter was configured with, when any. -/
def Exporter.temporalityOf : Exporter → Option PreferredTemporality
  | .otlp _ _ t => some t
  | .console => none

/-- The `PeriodicExportingMetricReader`: the exporter it is bound to and
its export interval in milliseconds (the result of `float(...)`). -/
structure Reader where
  exporter : Exporter
  intervalMillis : ℚ
deriving DecidableEq

/-- The configuration fields `Prometheus.__init__` reads: the
`(host, port)` endpoint pair, the exporter-kind selector, and the raw
export-interval value that `float()` is applied to. -/
structure Config where
  otlpEndpoint : String × String
  otelMetricsExporter : String
  otelExporterMillis : String
deriving DecidableEq

/-- Process-global state mutated by `Prometheus.__init__`: the
process-wide meter-provider singleton slot (`set_meter_provider`), and
the handler lists of the global `logging` loggers, keyed by logger name
(`logging.getLogger(name).addHandler`).  Handlers are identified by a
numeric id. -/
structure GlobalState where
  meterProvider : Option Nat
  handlers : String → List Nat

/-- Process-global state with no provider installed and no handlers. -/
def emptyGlobal : GlobalState :=
  { meterProvider := none, handlers := fun _ => [] }

/-- The registry-side result of `Prometheus.__init__`: the periodic
reader, the static resource labels, the provider id, and the names of
the two instruments created on the meter. -/
structure Registry where
  reader : Reader
  resourcePodName : String
  providerId : Nat
  logCounterName : String
  requestHistogramName : String

/-- An error escaping `Prometheus.__init__`.  The source performs no
configuration validation of its own; `configurationError` is the error
the specification speaks of, and it has no producer in the code.  The
only fallible step is `float(cfg.otel_exporter_millis)`. -/
inductive InitError
  | valueError : String → InitError
  | configurationError : InitError
deriving DecidableEq

/-- `Prometheus.__init__` (the instrumentation part, after the base
`Logger.__init__` call).  Mirrors the source: format the endpoint as
`host:port`; build the OTLP exporter with `insecure=True` and cumulative
temporality; replace it with the console exporter when the selector is
`"console"`; build the periodic reader with `float` of the configured
interval; build the provider with the `k8s.pod.name` resource read from
the environment; install the provider into the process-wide singleton
slot; create the `gunicorn.log` counter and the `gunicorn.request.time`
histogram; attach a `UvicornHandler` (identified by `newId`) to the
global `gunicorn.access` logger.  `kubePodName` is the value of the
`KUBE_POD_NAME` environment variable, `g` the process-global state at
entry. -/
def prometheusInit (cfg : Config) (kubePodName : Option String) (newId : Nat)
    (g : GlobalState) : Except InitError (Registry × GlobalState) :=
  let endpoint := cfg.otlpEndpoint.1 ++ ":" ++ cfg.otlpEndpoint.2
  let exporter := Exporter.otlp endpoint true temporalityCumulative
  let exporter := if cfg.otelMetricsExporter = "console" then Exporter.console else exporter
  match pyFloat cfg.otelExporterMillis with
  | none => .error (.valueError cfg.otelExporterMillis)
  | some interval =>
      .ok ({ reader := { exporter := exporter, intervalMillis := interval },
             resourcePodName := kubePodName.getD "unknown",
             providerId := newId,
             logCounterName := "gunicorn.log",
             requestHistogramName := "gunicorn.request.time" },
           { meterProvider := some newId,
             handlers := fun n =>
               if n = registeredChannel then g.handlers n ++ [newId] else g.handlers n })

/-- The export interval of the reader built by a successful
`prometheusInit`, `none` when construction failed. -/
def initInterval (cfg : Config) (kubePodName : Option String) (newId : Nat)
    (g : GlobalState) : Option ℚ :=
  match prometheusInit cfg kubePodName newId g with
  | .ok (res, _) => some res.reader.intervalMillis
  | .error _ => none

/-- The exporter the reader is bound to by a successful
`prometheusInit`, `none` when construction failed. -/
def initExporter (cfg : Config) (kubePodName : Option String) (newId : Nat)
    (g : GlobalState) : Option Exporter :=
  match prometheusInit cfg kubePodName newId g with
  | .ok (res, _) => some res.reader.exporter
  | .error _ => none

/-- The process-global state after `prometheusInit`; unchanged when
construction failed. -/
def initGlobal (cfg : Config) (kubePodName : Option String) (newId : Nat)
    (g : GlobalState) : GlobalState :=
  match prometheusInit cfg kubePodName newId g with
  | .ok (_, g2) => g2
  | .error _ => g

/-- A configuration selecting the console exporter. -/
def consoleCfg : Config :=
  { otlpEndpoint := ("localhost", "4317"),
    otelMetricsExporter := "console",
    otelExporterMillis := "5000" }

/-- A configuration selecting the default OTLP exporter. -/
def otlpCfg : Config :=
  { otlpEndpoint := ("otel-collector", "4317"),
    otelMetricsExporter := "otlp",
    otelExporterMillis := "5000" }

/-- A configuration whose export interval is negative. -/
def negIntervalCfg : Config :=
  { otlpEndpoint := ("localhost", "4317"),
    otelMetricsExporter := "otlp",
    otelExporterMillis := "-5" }

/-- The base calls recorded by each severity method. -/
theorem sevMethod_baseCalls (st : PromState) (sev : Severity) (c : LogCall) :
    (sevMethod st sev c).baseCalls = st.baseCalls ++ [sevBaseCall sev c] := by
  cases sev <;> rfl

/-- The counter update performed by each severity method. -/
theorem sevMethod_logCounter (st : PromState) (sev : Severity) (c : LogCall) :
    (sevMethod st sev c).logCounter = counterAdd st.logCounter 1 (sevName sev) := by
  cases sev <;> rfl

/-- C1: the claim says a record on channel "uvicorn.access" whose args
lack key "D" (or hold a non-numeric "D") produces zero samples and no
error visible to the caller.  The code produces zero samples but raises:
`emit` indexes `record.args["D"]` and calls `float` with no exception
handling, so `KeyError` (resp. `ValueError`) escapes the handler and,
since `logging.Handler.handle` does not catch, reaches the caller of the
logging call. -/
theorem C1_emit_raises_on_missing_or_bad_D :
    UvicornHandler.emit 4821 { name := "uvicorn.access", args := [("s", "200")] } =
      .error (.keyError "D") ∧
    UvicornHandler.emit 4821
        { name := "uvicorn.access", args := [("s", "200"), ("D", "abc")] } =
      .error (.valueError "abc") := by
  constructor <;> rfl

/-- C2: a record on channel "uvicorn.access" whose args hold "s" and a
numeric "D" yields exactly one histogram sample of value float(D)/10^3
labelled with the status value and the process id read at call time. -/
theorem C2_emit_records_one_sample (pid : Nat) (r : LogRecord)
    (status d : String) (q : ℚ)
    (hname : r.name = uvicornAccessChannel)
    (hs : argLookup r.args "s" = some status)
    (hD : argLookup r.args "D" = some d)
    (hq : pyFloat d = some q) :
    UvicornHandler.emit pid r =
      .ok [{ value := q / 10 ^ 3,
             labels := [("status", .str status), ("worker_pid", .num pid)] }] := by
  simp [UvicornHandler.emit, hname, hs, hD, hq]

/-- C2 witness: args s = "200", D = "1500" yield exactly one sample of
value 3/2 = 1.5 ms with labels status "200" and the given pid. -/
theorem C2_emit_records_one_sample_witness :
    UvicornHandler.emit 4821
        { name := "uvicorn.access", args := [("s", "200"), ("D", "1500")] } =
      .ok [{ value := 3 / 2,
             labels := [("status", .str "200"), ("worker_pid", .num 4821)] }] := by
  have h := C2_emit_records_one_sample 4821
    { name := "uvicorn.access", args := [("s", "200"), ("D", "1500")] }
    "200" "1500" 1500 rfl (by decide) (by decide) (by decide)
  rw [h]
  norm_num

/-- C3: N calls to one severity method forward exactly the N base-Logger
calls with identical arguments, in order, and add N to the log counter
at that severity's label, touching no other label. -/
theorem C3_severity_forward_and_count (sev : Severity) (cs : List LogCall)
    (st : PromState) :
    (sevCalls st sev cs).baseCalls = st.baseCalls ++ cs.map (sevBaseCall sev) ∧
    ∀ t, (sevCalls st sev cs).logCounter t =
      st.logCounter t + (if t = sevName sev then cs.length else 0) := by
  induction cs generalizing st with
  | nil => simp [sevCalls]
  | cons c cs ih =>
    have hfold : sevCalls st sev (c :: cs) = sevCalls (sevMethod st sev c) sev cs := rfl
    obtain ⟨ih1, ih2⟩ := ih (sevMethod st sev c)
    constructor
    · rw [hfold, ih1, sevMethod_baseCalls]
      simp
    · intro t
      rw [hfold, ih2 t, sevMethod_logCounter]
      unfold counterAdd
      by_cases h : t = sevName sev
      · simp [h]
        omega
      · simp [h]

/-- C4: info and debug forward to the base Logger.log at levels INFO and
DEBUG and leave the counter function untouched. -/
theorem C4_info_debug_no_counter (st : PromState) (c : LogCall) :
    (Prometheus.info st c).logCounter = st.logCounter ∧
    (Prometheus.info st c).baseCalls =
      st.baseCalls ++ [BaseCall.log INFO_LEVEL c.msg c.args c.kwargs] ∧
    (Prometheus.debug st c).logCounter = st.logCounter ∧
    (Prometheus.debug st c).baseCalls =
      st.baseCalls ++ [BaseCall.log DEBUG_LEVEL c.msg c.args c.kwargs] :=
  ⟨rfl, rfl, rfl, rfl⟩

/-- C5: the handler is attached to the "gunicorn.access" logger while
emit filters for name "uvicorn.access"; the two differ, so every record
named after the subscribed channel is dropped with zero samples. -/
theorem C5_subscribed_channel_dropped :
    registeredChannel ≠ uvicornAccessChannel ∧
    ∀ (pid : Nat) (args : List (String × String)),
      UvicornHandler.emit pid { name := registeredChannel, args := args } = .ok [] :=
  ⟨by decide, fun _ _ => rfl⟩

/-- C6: a record whose name is not "uvicorn.access" produces zero
histogram samples whatever its args. -/
theorem C6_other_channel_no_sample (pid : Nat) (name : String)
    (args : List (String × String)) (h : name ≠ uvicornAccessChannel) :
    UvicornHandler.emit pid { name := name, args := args } = .ok [] := by
  simp [UvicornHandler.emit, h]

/-- C6 witness: a record named "other.channel" with well-formed access
args still yields no sample. -/
theorem C6_other_channel_no_sample_witness :
    UvicornHandler.emit 1
        { name := "other.channel", args := [("s", "200"), ("D", "1500")] } = .ok [] :=
  C6_other_channel_no_sample 1 "other.channel" [("s", "200"), ("D", "1500")] (by decide)

/-- C7: with selector "console" the reader is bound to the console
exporter; with any other selector it is bound to the OTLP exporter
targeting the endpoint "host:port" built from the configured pair. -/
theorem C7_exporter_selection (cfg : Config) (pod : Option String) (i : Nat)
    (g : GlobalState) (q : ℚ) (hq : pyFloat cfg.otelExporterMillis = some q) :
    (cfg.otelMetricsExporter = "console" →
      initExporter cfg pod i g = some .console) ∧
    (cfg.otelMetricsExporter ≠ "console" →
      initExporter cfg pod i g = some
        (.otlp (cfg.otlpEndpoint.1 ++ ":" ++ cfg.otlpEndpoint.2) true
          temporalityCumulative)) := by
  constructor <;> intro h <;> simp [initExporter, prometheusInit, hq, h]

/-- C7 witness: the console configuration binds the console exporter and
the otlp configuration binds the OTLP exporter at its host:port. -/
theorem C7_exporter_selection_witness :
    initExporter consoleCfg none 1 emptyGlobal = some .console ∧
    initExporter otlpCfg none 1 emptyGlobal =
      some (.otlp "otel-collector:4317" true temporalityCumulative) :=
  ⟨(C7_exporter_selection consoleCfg none 1 emptyGlobal 5000 (by decide)).1 rfl,
   (C7_exporter_selection otlpCfg none 1 emptyGlobal 5000 (by decide)).2 (by decide)⟩

/-- C8: the OTLP exporter the reader is bound to is configured with
CUMULATIVE temporality for both the counter and the histogram kind. -/
theorem C8_otlp_cumulative_temporality (cfg : Config) (pod : Option String)
    (i : Nat) (g : GlobalState) (q : ℚ)
    (hq : pyFloat cfg.otelExporterMillis = some q)
    (hkind : cfg.otelMetricsExporter ≠ "console") :
    (initExporter cfg pod i g).bind Exporter.temporalityOf =
      some { counter := .cumulative, histogram := .cumulative } := by
  simp [initExporter, prometheusInit, hq, hkind, Exporter.temporalityOf,
    temporalityCumulative]

/-- C8 witness: the otlp configuration yields a reader whose exporter
carries cumulative temporality for both instrument kinds. -/
theorem C8_otlp_cumulative_temporality_witness :
    (initExporter otlpCfg none 1 emptyGlobal).bind Exporter.temporalityOf =
      some { counter := .cumulative, histogram := .cumulative } :=
  C8_otlp_cumulative_temporality otlpCfg none 1 emptyGlobal 5000 (by decide) (by decide)

/-- C9 counterexample: with the export interval configured as -5
(non-positive), construction succeeds and the reader carries interval
-5; no ConfigurationError is raised, contrary to the claim. -/
theorem C9_counterexample_negative_interval_accepted :
    initInterval negIntervalCfg none 1 emptyGlobal = some (-5) ∧ (-5 : ℚ) ≤ 0 := by
  constructor
  · decide
  · norm_num

/-- C9 amended: construction never fails with ConfigurationError for any
configuration; whenever float() accepts the configured interval value
(whatever its sign), construction succeeds with exactly that interval.
The only fallible step is float() itself. -/
theorem C9_no_configuration_validation (cfg : Config) (pod : Option String)
    (i : Nat) (g : GlobalState) :
    (prometheusInit cfg pod i g ≠ .error .configurationError) ∧
    (∀ q : ℚ, pyFloat cfg.otelExporterMillis = some q →
      initInterval cfg pod i g = some q) := by
  constructor
  · cases h : pyFloat cfg.otelExporterMillis <;> simp [prometheusInit, h]
  · intro q hq
    simp [initInterval, prometheusInit, hq]

/-- C9 witness: at the negative-interval configuration, no
ConfigurationError and interval -5 recorded. -/
theorem C9_no_configuration_validation_witness :
    prometheusInit negIntervalCfg none 1 emptyGlobal ≠ .error .configurationError ∧
    initInterval negIntervalCfg none 1 emptyGlobal = some (-5) :=
  ⟨(C9_no_configuration_validation negIntervalCfg none 1 emptyGlobal).1,
   (C9_no_configuration_validation negIntervalCfg none 1 emptyGlobal).2 (-5) (by decide)⟩

/-- C10 counterexample: construction mutates process-wide state.  From
an empty global state, one construction installs provider 1 into the
singleton slot, and a second construction in the same process leaves the
global "gunicorn.access" logger holding both handlers [1, 2] — the two
registries are not isolated. -/
theorem C10_counterexample_global_state_mutated :
    emptyGlobal.meterProvider = none ∧
    (initGlobal otlpCfg none 1 emptyGlobal).meterProvider = some 1 ∧
    (initGlobal otlpCfg none 2
        (initGlobal otlpCfg none 1 emptyGlobal)).handlers registeredChannel =
      [1, 2] := by
  refine ⟨rfl, ?_, ?_⟩ <;> decide

/-- C10 amended: every successful construction installs its provider
into the process-wide singleton slot (set_meter_provider) and appends
its handler to the process-global "gunicorn.access" logger's handler
list, so registries constructed in one process share that global
state. -/
theorem C10_init_installs_global_singletons (cfg : Config) (pod : Option String)
    (i : Nat) (g : GlobalState) (q : ℚ)
    (hq : pyFloat cfg.otelExporterMillis = some q) :
    (initGlobal cfg pod i g).meterProvider = some i ∧
    (initGlobal cfg pod i g).handlers registeredChannel =
      g.handlers registeredChannel ++ [i] := by
  constructor <;> simp [initGlobal, prometheusInit, hq]

/-- C10 amended witness: one construction from the empty global state
installs provider 7 and registers handler 7 on "gunicorn.access". -/
theorem C10_init_installs_global_singletons_witness :
    (initGlobal otlpCfg none 7 emptyGlobal).meterProvider = some 7 ∧
    (initGlobal otlpCfg none 7 emptyGlobal).handlers registeredChannel = [7] := by
  have h := C10_init_installs_global_singletons otlpCfg none 7 emptyGlobal 5000 (by decide)
  exact ⟨h.1, by rw [h.2]; rfl⟩
